import Mathlib

/-!
# Verification of the book-review backend

A shallow embedding of the Express/Mongoose backend of the book-review
application, together with theorems about its review-aggregation,
authentication, validation, registration, pagination and rate-limiting
behaviour.

Sources embedded:
- `middleware/auth.js` : `authenticate`, `reviewValidation`, `validate`,
  `authLimiter`, `apiLimiter`;
- `routes/reviews.js` : the create / update / delete review handlers and
  their book-aggregate recomputation;
- `routes/auth.js` : register, login and `/me` handlers;
- `server.js` : schemas, app-level middleware, route mounting and the
  paginated book listing.

JavaScript numbers are modelled as `ℚ` where division occurs (book
ratings) and as `Nat`/`Int` elsewhere; Mongo documents are Lean
structures; collections are lists; `findByIdAndUpdate` is a map over the
collection touching the documents with the given id.
-/

/-- A book document (`bookSchema` in `server.js`).  `rating` and
`reviewCount` are the derived aggregate fields. -/
structure Book where
  id : Nat
  title : String
  author : String
  description : String
  genre : String
  coverImage : String
  rating : ℚ
  reviewCount : Nat
  createdAt : Nat
deriving Repr, DecidableEq

/-- A review document (`reviewSchema` in `server.js`). -/
structure Review where
  id : Nat
  bookId : Nat
  userId : Nat
  rating : Int
  content : String
deriving Repr, DecidableEq

/-- A user document (`userSchema` in `server.js`); `password` holds the
bcrypt hash. -/
structure User where
  id : Nat
  username : String
  email : String
  password : String
  profilePicture : Option String
  bio : Option String
  createdAt : Nat
deriving Repr, DecidableEq

/-- The document store: the three collections the backend persists. -/
structure AppState where
  books : List Book
  reviews : List Review
  users : List User
deriving Repr, DecidableEq

/-- `Review.find({ bookId })`: all reviews of one book. -/
def reviewsFor (reviews : List Review) (bookId : Nat) : List Review :=
  reviews.filter (fun r => r.bookId == bookId)

/-- `reviews.reduce((acc, r) => acc + r.rating, 0) / reviews.length`:
the arithmetic mean of the ratings of a list of reviews. -/
def meanRating (l : List Review) : ℚ :=
  (l.map (fun r => (r.rating : ℚ))).sum / (l.length : ℚ)

/-- The JWT payload signed at login/registration:
`{ id: user._id, username: user.username }`. -/
structure AuthUser where
  id : Nat
  username : String
deriving Repr, DecidableEq

/-- Outcome of the `authenticate` middleware. -/
inductive AuthResult where
  | ok (u : AuthUser)
  | unauthorized
deriving Repr, DecidableEq

/-- JavaScript `str.split(sep)` on character lists: splits at every
occurrence of `sep`, keeping empty segments. -/
def splitChars (sep : Char) : List Char → List (List Char)
  | [] => [[]]
  | c :: rest =>
    match splitChars sep rest with
    | [] => [[]]
    | grp :: gs => if c == sep then [] :: grp :: gs else (c :: grp) :: gs

/-- JavaScript `s.startsWith(pre)`. -/
def strStartsWith (s pre : String) : Bool :=
  pre.data.isPrefixOf s.data

/-- Whitespace for JavaScript-style trimming. -/
def isWsChar (c : Char) : Bool :=
  c == ' ' || c == '\t' || c == '\n' || c == '\r'

/-- JavaScript `s.trim()`: strip leading and trailing whitespace. -/
def strTrim (s : String) : String :=
  String.mk (((s.data.dropWhile isWsChar).reverse.dropWhile isWsChar).reverse)

/-- `authHeader.split(' ')[1]`: the token part of the header (the empty
string models JavaScript's `undefined` when there is no second part). -/
def headerToken (h : String) : String :=
  String.mk ((splitChars ' ' h.data).getD 1 [])

/-- The `authenticate` middleware (`middleware/auth.js`): requires an
`Authorization` header starting with `Bearer `, then verifies the token;
`jwt.verify` is abstracted as `verify`, returning the decoded payload on
success and `none` when verification throws. -/
def authenticate (verify : String → Option AuthUser)
    (authHeader : Option String) : AuthResult :=
  match authHeader with
  | none => AuthResult.unauthorized
  | some h =>
    if strStartsWith h "Bearer " then
      match verify (headerToken h) with
      | some u => AuthResult.ok u
      | none => AuthResult.unauthorized
    else AuthResult.unauthorized

/-- A protected route: run `authenticate`; on failure respond 401 without
running the handler, otherwise run the handler with the decoded user. -/
def withAuth (verify : String → Option AuthUser) (authHeader : Option String)
    (handler : AuthUser → AppState → Nat × AppState) (s : AppState) :
    Nat × AppState :=
  match authenticate verify authHeader with
  | AuthResult.unauthorized => (401, s)
  | AuthResult.ok u => handler u s

/-- `reviewValidation` + `validate`: `rating` must be an integer in
`[1, 5]`; `content` must be a string whose trimmed length is in
`[10, 1000]`. -/
def reviewBodyValid (rating : Int) (content : String) : Bool :=
  decide (1 ≤ rating) && decide (rating ≤ 5) &&
    decide (10 ≤ (strTrim content).length) &&
    decide ((strTrim content).length ≤ 1000)

/-- `router.post('/')` handler body in `routes/reviews.js` (after
`authenticate`/`validate`): reject 400 if the user already reviewed the
book; otherwise save the new review (`newId` is the fresh `_id` Mongo
assigns), reload the book's reviews, and overwrite the book's `rating`
and `reviewCount` with the recomputed aggregate. -/
def postReviewHandler (s : AppState) (uid newId bookId : Nat) (rating : Int)
    (content : String) : Nat × AppState :=
  if s.reviews.any (fun r => r.bookId == bookId && r.userId == uid) then
    (400, s)
  else
    let review : Review :=
      { id := newId, bookId := bookId, userId := uid, rating := rating,
        content := content }
    let reviews' := s.reviews ++ [review]
    let bookReviews := reviewsFor reviews' bookId
    let averageRating := meanRating bookReviews
    let books' := s.books.map (fun b =>
      if b.id == bookId then
        { b with rating := averageRating, reviewCount := bookReviews.length }
      else b)
    (201, { s with books := books', reviews := reviews' })

/-- `router.put('/:id')` handler body: find the review by id and owner
(404 if absent), overwrite its rating/content, reload the book's reviews
and overwrite the book's `rating` — and only `rating` — with the
recomputed mean. -/
def putReviewHandler (s : AppState) (uid reviewId : Nat) (rating : Int)
    (content : String) : Nat × AppState :=
  match s.reviews.find? (fun r => r.id == reviewId && r.userId == uid) with
  | none => (404, s)
  | some rv =>
    let updated : Review := { rv with rating := rating, content := content }
    let reviews' := s.reviews.map (fun r => if r.id == rv.id then updated else r)
    let bookReviews := reviewsFor reviews' rv.bookId
    let averageRating := meanRating bookReviews
    let books' := s.books.map (fun b =>
      if b.id == rv.bookId then { b with rating := averageRating } else b)
    (200, { s with books := books', reviews := reviews' })

/-- `router.delete('/:id')` handler body: find the review by id and owner
(404 if absent), remove it, reload the book's reviews, and overwrite the
book's `rating` (0 when no reviews remain, guarding the division) and
`reviewCount`. -/
def deleteReviewHandler (s : AppState) (uid reviewId : Nat) :
    Nat × AppState :=
  match s.reviews.find? (fun r => r.id == reviewId && r.userId == uid) with
  | none => (404, s)
  | some rv =>
    let reviews' := s.reviews.filter (fun r => !(r.id == rv.id))
    let bookReviews := reviewsFor reviews' rv.bookId
    let averageRating :=
      if 0 < bookReviews.length then meanRating bookReviews else 0
    let books' := s.books.map (fun b =>
      if b.id == rv.bookId then
        { b with rating := averageRating, reviewCount := bookReviews.length }
      else b)
    (200, { s with books := books', reviews := reviews' })

/-- `POST /api/reviews`, full middleware chain: `authenticate`, then
`reviewValidation`/`validate` (the `trim` sanitizer leaves the trimmed
content in the body), then the create handler. -/
def handlePostReview (verify : String → Option AuthUser)
    (authHeader : Option String) (s : AppState) (newId bookId : Nat)
    (rating : Int) (content : String) : Nat × AppState :=
  withAuth verify authHeader
    (fun u st =>
      if reviewBodyValid rating content then
        postReviewHandler st u.id newId bookId rating (strTrim content)
      else (400, st)) s

/-- `PUT /api/reviews/:id`, full middleware chain. -/
def handlePutReview (verify : String → Option AuthUser)
    (authHeader : Option String) (s : AppState) (reviewId : Nat)
    (rating : Int) (content : String) : Nat × AppState :=
  withAuth verify authHeader
    (fun u st =>
      if reviewBodyValid rating content then
        putReviewHandler st u.id reviewId rating (strTrim content)
      else (400, st)) s

/-- `DELETE /api/reviews/:id`, full middleware chain (authentication
only; no body validation). -/
def handleDeleteReview (verify : String → Option AuthUser)
    (authHeader : Option String) (s : AppState) (reviewId : Nat) :
    Nat × AppState :=
  withAuth verify authHeader (fun u st => deleteReviewHandler st u.id reviewId) s

/-- `router.post('/register')` handler body in `routes/auth.js` (after
`userValidation`/`validate`): reject 400 when a user with the same email
or username exists; otherwise store the new user with the hashed
password (`hashed`) and respond 201.  `now` models `Date.now()`. -/
def registerHandler (s : AppState) (newId now : Nat)
    (username email hashed : String) : Nat × AppState :=
  if s.users.any (fun u => u.email == email || u.username == username) then
    (400, s)
  else
    let user : User :=
      { id := newId, username := username, email := email, password := hashed,
        profilePicture := none, bio := none, createdAt := now }
    (201, { s with users := s.users ++ [user] })

/-- `POST /api/auth/register`, with the outcome of
`userValidation`/`validate` abstracted as `valid` (a failed validation
responds 400 before the handler runs). -/
def handleRegister (valid : Bool) (s : AppState) (newId now : Nat)
    (username email hashed : String) : Nat × AppState :=
  if valid then registerHandler s newId now username email hashed
  else (400, s)

/-- The `user` object embedded in register/login responses:
`{ id, username, email }`. -/
structure AuthUserBody where
  id : Nat
  username : String
  email : String
deriving Repr, DecidableEq

/-- The register/login success body:
`{ token, user: { id, username, email } }`. -/
structure AuthRespBody where
  token : String
  user : AuthUserBody
deriving Repr, DecidableEq

/-- Body of a 201 `POST /api/auth/register` response. -/
def registerResponseBody (token : String) (u : User) : AuthRespBody :=
  { token := token,
    user := { id := u.id, username := u.username, email := u.email } }

/-- Body of a 200 `POST /api/auth/login` response. -/
def loginResponseBody (token : String) (u : User) : AuthRespBody :=
  { token := token,
    user := { id := u.id, username := u.username, email := u.email } }

/-- A user document after `.select('-password')`: every schema field
except `password`. -/
structure UserNoPassword where
  id : Nat
  username : String
  email : String
  profilePicture : Option String
  bio : Option String
  createdAt : Nat
deriving Repr, DecidableEq

/-- `.select('-password')` as a projection. -/
def selectNoPassword (u : User) : UserNoPassword :=
  { id := u.id, username := u.username, email := u.email,
    profilePicture := u.profilePicture, bio := u.bio,
    createdAt := u.createdAt }

/-- `GET /api/auth/me` handler body: `User.findById(req.user.id)
.select('-password')`, serialised as the response. -/
def meResponse (s : AppState) (uid : Nat) : Option UserNoPassword :=
  (s.users.find? (fun u => u.id == uid)).map selectNoPassword

/-- `.sort({ createdAt: -1 })`: newest first. -/
def byCreatedAtDesc (a b : Book) : Prop :=
  b.createdAt ≤ a.createdAt

instance : DecidableRel byCreatedAtDesc :=
  fun a b => Nat.decLe b.createdAt a.createdAt

instance : IsTotal Book byCreatedAtDesc :=
  ⟨fun a b => (Nat.le_total b.createdAt a.createdAt).imp id id⟩

instance : IsTrans Book byCreatedAtDesc :=
  ⟨fun _ _ _ h1 h2 => Nat.le_trans h2 h1⟩

/-- The Mongo result order of `Book.find(query).sort({ createdAt: -1 })`. -/
def sortBooks (l : List Book) : List Book :=
  List.insertionSort byCreatedAtDesc l

/-- `Math.ceil(a / b)` for a natural numerator and positive natural
denominator. -/
def mathCeilDiv (a b : Nat) : Nat :=
  (a + b - 1) / b

/-- Body of a `GET /api/books` response (`server.js`). -/
structure BooksListing where
  books : List Book
  totalPages : Nat
  currentPage : Nat
deriving Repr, DecidableEq

/-- `bookRoutes.get('/')` in `server.js`: filter by the search/genre
query (the regex/genre match is abstracted as the predicate `q`), sort
by `createdAt` descending, skip `(page - 1) * 9`, return at most
`limit = 9` books, and report `totalPages = Math.ceil(total / limit)`
over the count of all matching books. -/
def getBooks (q : Book → Bool) (page : Nat) (books : List Book) :
    BooksListing :=
  let matching := books.filter q
  let total := matching.length
  let listed := ((sortBooks matching).drop ((page - 1) * 9)).take 9
  { books := listed, totalPages := mathCeilDiv total 9, currentPage := page }

/-- The middleware the app and its routers install (`server.js`,
`middleware/auth.js`, `routes/reviews.js`, `routes/auth.js`). -/
inductive Mw where
  | cors
  | jsonBody
  | authLimiter
  | apiLimiter
  | authenticateChk
  | reviewValidationChk
  | userValidationChk
  | loginValidationChk
  | validateChk
deriving Repr, DecidableEq

/-- The API endpoints the routers expose. -/
inductive Endpoint where
  | booksList
  | booksGet
  | reviewsList
  | reviewsCreate
  | reviewsUpdate
  | reviewsDelete
  | registerUser
  | login
  | me
deriving Repr, DecidableEq

/-- App-level middleware installed before any router (`server.js`:
`app.use(cors())`, `app.use(express.json())`). -/
def appLevelMws : List Mw :=
  [Mw.cors, Mw.jsonBody]

/-- The per-route middleware chain, as attached in `routes/reviews.js`
and `routes/auth.js`; the book routes attach none. -/
def routeMws : Endpoint → List Mw
  | Endpoint.booksList => []
  | Endpoint.booksGet => []
  | Endpoint.reviewsList => []
  | Endpoint.reviewsCreate => [Mw.authenticateChk, Mw.reviewValidationChk, Mw.validateChk]
  | Endpoint.reviewsUpdate => [Mw.authenticateChk, Mw.reviewValidationChk, Mw.validateChk]
  | Endpoint.reviewsDelete => [Mw.authenticateChk]
  | Endpoint.registerUser => [Mw.userValidationChk, Mw.validateChk]
  | Endpoint.login => [Mw.authLimiter, Mw.loginValidationChk, Mw.validateChk]
  | Endpoint.me => [Mw.authenticateChk]

/-- Every middleware a request to an endpoint passes through: the
app-level middleware followed by the route's own chain. -/
def chainFor (e : Endpoint) : List Mw :=
  appLevelMws ++ routeMws e

/-- Rate-limiter configuration `(windowMs, max)` of a middleware:
`authLimiter` is 5 per 15 minutes, `apiLimiter` 100 per minute
(`middleware/auth.js`); other middleware do not limit. -/
def limiterCfg : Mw → Option (Nat × Nat)
  | Mw.authLimiter => some (15 * 60 * 1000, 5)
  | Mw.apiLimiter => some (60 * 1000, 100)
  | _ => none

/-- Whether one rate limiter admits the `k`-th request (1-based) from a
client when all `k` requests fall inside a single window: express-rate-limit
rejects once the window's count exceeds `max`. -/
def limiterAdmits (m : Mw) (k : Nat) : Bool :=
  match limiterCfg m with
  | none => true
  | some (_, mx) => decide (k ≤ mx)

/-- Whether the `k`-th request (1-based) from one client within a single
window reaches the endpoint's handler instead of being rejected by a
rate limiter in its chain. -/
def handledWithinWindow (e : Endpoint) (k : Nat) : Bool :=
  (chainFor e).all (fun m => limiterAdmits m k)

/-- Claim C6: a request to a protected endpoint whose Authorization
header is absent, does not start with `Bearer `, or carries a token that
fails verification receives status 401, and the route handler is never
run (the response state is the unchanged input state, whatever the
handler is). -/
theorem missing_or_invalid_token_rejected
    (verify : String → Option AuthUser) (authHeader : Option String)
    (handler : AuthUser → AppState → Nat × AppState) (s : AppState)
    (h : authHeader = none ∨
      ∃ hd, authHeader = some hd ∧
        (strStartsWith hd "Bearer " = false ∨ verify (headerToken hd) = none)) :
    withAuth verify authHeader handler s = (401, s) := by
  rcases h with h | ⟨hd, rfl, h⟩
  · subst h; rfl
  · unfold withAuth authenticate
    by_cases hs : strStartsWith hd "Bearer " = true
    · rcases h with h | h
      · rw [hs] at h; cases h
      · simp [hs, h]
    · rw [Bool.not_eq_true] at hs
      simp [hs]

/-- Witness for C6 at a concrete request: header `Basic abc` with a
verifier that rejects everything and a handler that would answer 200. -/
theorem missing_or_invalid_token_rejected_witness :
    ((some "Basic abc" : Option String) = none ∨
      ∃ hd, (some "Basic abc" : Option String) = some hd ∧
        (strStartsWith hd "Bearer " = false ∨
          (fun _ => (none : Option AuthUser)) (headerToken hd) = none)) ∧
    withAuth (fun _ => (none : Option AuthUser)) (some "Basic abc")
      (fun _ st => (200, st)) ⟨[], [], []⟩ = (401, ⟨[], [], []⟩) := by
  refine ⟨Or.inr ⟨"Basic abc", rfl, Or.inl (by decide)⟩, ?_⟩
  exact missing_or_invalid_token_rejected _ _ _ _
    (Or.inr ⟨"Basic abc", rfl, Or.inl (by decide)⟩)

/-- Claim C4: an authenticated user who already has a review for a book
gets 400 from a second `POST /api/reviews` for that book, and the store
(reviews, book aggregates) is unchanged. -/
theorem duplicate_review_rejected
    (verify : String → Option AuthUser) (authHeader : Option String)
    (s : AppState) (newId bookId : Nat) (rating : Int) (content : String)
    (u : AuthUser)
    (hauth : authenticate verify authHeader = AuthResult.ok u)
    (hex : ∃ r ∈ s.reviews, r.bookId = bookId ∧ r.userId = u.id) :
    handlePostReview verify authHeader s newId bookId rating content = (400, s) := by
  have hany : s.reviews.any (fun r => r.bookId == bookId && r.userId == u.id) = true := by
    rcases hex with ⟨r, hr, h1, h2⟩
    exact List.any_eq_true.mpr ⟨r, hr, by simp [h1, h2]⟩
  by_cases hv : reviewBodyValid rating content = true
  · simp [handlePostReview, withAuth, hauth, hv, postReviewHandler, hany]
  · rw [Bool.not_eq_true] at hv
    simp [handlePostReview, withAuth, hauth, hv]

/-- Witness for C4: user 7 (authenticated via a verifier accepting token
`tok`) already reviewed book 1; the duplicate POST returns 400 and
leaves the state unchanged. -/
theorem duplicate_review_rejected_witness :
    authenticate (fun t => if t == "tok" then some ⟨7, "alice"⟩ else none)
      (some "Bearer tok") = AuthResult.ok ⟨7, "alice"⟩ ∧
    (∃ r ∈ [Review.mk 10 1 7 4 "a fine book overall"],
      r.bookId = 1 ∧ r.userId = 7) ∧
    handlePostReview (fun t => if t == "tok" then some ⟨7, "alice"⟩ else none)
      (some "Bearer tok")
      ⟨[], [Review.mk 10 1 7 4 "a fine book overall"], []⟩ 11 1 5
      "another opinion entirely" =
      (400, ⟨[], [Review.mk 10 1 7 4 "a fine book overall"], []⟩) := by
  refine ⟨by decide, ⟨Review.mk 10 1 7 4 "a fine book overall", by decide⟩, ?_⟩
  exact duplicate_review_rejected _ _ _ _ _ _ _ ⟨7, "alice"⟩ (by decide)
    ⟨Review.mk 10 1 7 4 "a fine book overall", by decide⟩

/-- Claim C5: a `POST /api/reviews` whose body rating lies outside
`1..5` (for example 0 or 6) is rejected with 400 by the validation
layer, and the store is unchanged. -/
theorem invalid_rating_rejected
    (verify : String → Option AuthUser) (authHeader : Option String)
    (s : AppState) (newId bookId : Nat) (rating : Int) (content : String)
    (u : AuthUser)
    (hauth : authenticate verify authHeader = AuthResult.ok u)
    (hr : rating < 1 ∨ 5 < rating) :
    handlePostReview verify authHeader s newId bookId rating content = (400, s) := by
  have hv : reviewBodyValid rating content = false := by
    unfold reviewBodyValid
    rcases hr with h | h
    · simp [decide_eq_false (not_le.mpr h)]
    · simp [decide_eq_false (not_le.mpr h)]
  simp [handlePostReview, withAuth, hauth, hv]

/-- Witness for C5: an authenticated POST with rating 6 is rejected with
400 and the state is unchanged. -/
theorem invalid_rating_rejected_witness :
    authenticate (fun t => if t == "tok" then some ⟨7, "alice"⟩ else none)
      (some "Bearer tok") = AuthResult.ok ⟨7, "alice"⟩ ∧
    ((6 : Int) < 1 ∨ (5 : Int) < 6) ∧
    handlePostReview (fun t => if t == "tok" then some ⟨7, "alice"⟩ else none)
      (some "Bearer tok") ⟨[], [], []⟩ 11 1 6 "a long enough review text" =
      (400, ⟨[], [], []⟩) := by
  refine ⟨by decide, Or.inr (by decide), ?_⟩
  exact invalid_rating_rejected _ _ _ _ _ _ _ ⟨7, "alice"⟩ (by decide)
    (Or.inr (by decide))

/-- Claim C7: a registration whose email (or username) already belongs
to an existing user is rejected with 400 and the user collection is
unchanged, whatever the validation outcome was. -/
theorem duplicate_registration_rejected
    (valid : Bool) (s : AppState) (newId now : Nat)
    (username email hashed : String)
    (hex : ∃ u ∈ s.users, u.email = email ∨ u.username = username) :
    handleRegister valid s newId now username email hashed = (400, s) := by
  unfold handleRegister
  cases valid with
  | false => rfl
  | true =>
    unfold registerHandler
    have hany : s.users.any (fun u => u.email == email || u.username == username) = true := by
      rcases hex with ⟨u, hu, h⟩
      refine List.any_eq_true.mpr ⟨u, hu, ?_⟩
      rcases h with h | h <;> simp [h]
    simp [hany]

/-- Witness for C7: registering with the email of the already-present
user `alice` returns 400 and leaves the user collection unchanged. -/
theorem duplicate_registration_rejected_witness :
    (∃ u ∈ [User.mk 7 "alice" "alice@mail.test" "h4sh" none none 0],
      u.email = "alice@mail.test" ∨ u.username = "bob") ∧
    handleRegister true
      ⟨[], [], [User.mk 7 "alice" "alice@mail.test" "h4sh" none none 0]⟩
      8 99 "bob" "alice@mail.test" "h4sh2" =
      (400, ⟨[], [], [User.mk 7 "alice" "alice@mail.test" "h4sh" none none 0]⟩) := by
  refine ⟨⟨User.mk 7 "alice" "alice@mail.test" "h4sh" none none 0, by decide⟩, ?_⟩
  exact duplicate_registration_rejected _ _ _ _ _ _ _
    ⟨User.mk 7 "alice" "alice@mail.test" "h4sh" none none 0, by decide⟩

/-- Claim C9: no successful auth response carries the stored password
hash: register/login bodies hold exactly `id`, `username`, `email`
(plus the token) and do not depend on the password field, and the `/me`
response applies the `-password` projection, which is likewise
insensitive to the password field. -/
theorem auth_responses_exclude_password
    (token p : String) (u : User) (s : AppState) (uid : Nat) :
    registerResponseBody token u =
      { token := token,
        user := { id := u.id, username := u.username, email := u.email } } ∧
    registerResponseBody token { u with password := p } =
      registerResponseBody token u ∧
    loginResponseBody token { u with password := p } =
      loginResponseBody token u ∧
    selectNoPassword { u with password := p } = selectNoPassword u ∧
    meResponse { s with users := s.users.map (fun v => { v with password := p }) } uid =
      meResponse s uid := by
  refine ⟨rfl, rfl, rfl, rfl, ?_⟩
  unfold meResponse
  induction s.users with
  | nil => rfl
  | cons v vs ih =>
    by_cases hv : v.id == uid
    · simp [List.find?, hv, selectNoPassword]
    · simpa [List.find?, hv] using ih

/-- Claim C8 (failing): the `apiLimiter` (100 requests per minute) is
defined in `middleware/auth.js` but never mounted: no endpoint's
middleware chain contains it, so the 101st request from one client
within a single minute to `GET /api/books` is still handled; had the
limiter been in the chain, it would have rejected that request. -/
theorem api_rate_limiter_never_mounted :
    (∀ e : Endpoint, Mw.apiLimiter ∉ chainFor e) ∧
    handledWithinWindow Endpoint.booksList 101 = true ∧
    limiterAdmits Mw.apiLimiter 101 = false := by
  refine ⟨fun e => ?_, by decide, by decide⟩
  cases e <;> decide

/-- Claim C1: after a successful review creation (`POST /api/reviews`
returning 201), every book carrying the posted `bookId` has `rating`
equal to the arithmetic mean of the ratings of all reviews of that book
(the new one included) and `reviewCount` equal to their number. -/
theorem post_review_updates_book_aggregate
    (verify : String → Option AuthUser) (authHeader : Option String)
    (s : AppState) (newId bookId : Nat) (rating : Int) (content : String)
    (h : (handlePostReview verify authHeader s newId bookId rating content).1 = 201) :
    ∀ b ∈ (handlePostReview verify authHeader s newId bookId rating content).2.books,
      b.id = bookId →
        b.rating = meanRating
          (reviewsFor (handlePostReview verify authHeader s newId bookId rating content).2.reviews bookId) ∧
        b.reviewCount =
          (reviewsFor (handlePostReview verify authHeader s newId bookId rating content).2.reviews bookId).length := by
  intro b hb hbid
  cases hA : authenticate verify authHeader with
  | unauthorized =>
    simp only [handlePostReview, withAuth, hA] at h
    cases h
  | ok u =>
    by_cases hv : reviewBodyValid rating content = true
    · simp only [handlePostReview, withAuth, hA, hv, if_true] at h hb hbid ⊢
      by_cases hex :
          s.reviews.any (fun r => r.bookId == bookId && r.userId == u.id) = true
      · simp only [postReviewHandler, hex, if_true] at h
        cases h
      · rw [Bool.not_eq_true] at hex
        simp only [postReviewHandler, hex, Bool.false_eq_true, if_false] at hb hbid ⊢
        obtain ⟨a, ha, rfl⟩ := List.mem_map.mp hb
        by_cases hid : (a.id == bookId) = true
        · simp only [hid, if_true]
          constructor <;> trivial
        · rw [Bool.not_eq_true] at hid
          simp only [hid, Bool.false_eq_true, if_false] at hbid
          exact absurd hbid (by simpa using hid)
    · rw [Bool.not_eq_true] at hv
      simp only [handlePostReview, withAuth, hA, hv, Bool.false_eq_true, if_false] at h
      cases h

/-- Witness for C1: user 7 posts the first review (rating 4) for book 1;
the request returns 201 and the theorem applies. -/
theorem post_review_updates_book_aggregate_witness :
    (handlePostReview (fun t => if t == "tok" then some ⟨7, "alice"⟩ else none)
      (some "Bearer tok")
      ⟨[⟨1, "t", "au", "d", "g", "c", 0, 0, 5⟩], [], []⟩
      10 1 4 "a perfectly fine book").1 = 201 ∧
    ∀ b ∈ (handlePostReview (fun t => if t == "tok" then some ⟨7, "alice"⟩ else none)
      (some "Bearer tok")
      ⟨[⟨1, "t", "au", "d", "g", "c", 0, 0, 5⟩], [], []⟩
      10 1 4 "a perfectly fine book").2.books,
      b.id = 1 →
        b.rating = meanRating
          (reviewsFor (handlePostReview (fun t => if t == "tok" then some ⟨7, "alice"⟩ else none)
            (some "Bearer tok")
            ⟨[⟨1, "t", "au", "d", "g", "c", 0, 0, 5⟩], [], []⟩
            10 1 4 "a perfectly fine book").2.reviews 1) ∧
        b.reviewCount =
          (reviewsFor (handlePostReview (fun t => if t == "tok" then some ⟨7, "alice"⟩ else none)
            (some "Bearer tok")
            ⟨[⟨1, "t", "au", "d", "g", "c", 0, 0, 5⟩], [], []⟩
            10 1 4 "a perfectly fine book").2.reviews 1).length :=
  ⟨by decide, post_review_updates_book_aggregate _ _ _ _ _ _ _ (by decide)⟩

/-- Counterexample to claim C2 as stated: book 1 starts with a stale
`reviewCount` of 99 and one review; its owner successfully updates that
review (status 200), yet `reviewCount` stays 99 while the book has
exactly one review — the update handler does not overwrite
`reviewCount`. -/
theorem put_review_review_count_not_overwritten_cex :
    (handlePutReview (fun t => if t == "tok" then some ⟨7, "alice"⟩ else none)
      (some "Bearer tok")
      ⟨[⟨1, "t", "au", "d", "g", "c", 2, 99, 5⟩],
        [⟨10, 1, 7, 2, "the old review body"⟩], []⟩
      10 5 "the new review body!").1 = 200 ∧
    (reviewsFor (handlePutReview (fun t => if t == "tok" then some ⟨7, "alice"⟩ else none)
      (some "Bearer tok")
      ⟨[⟨1, "t", "au", "d", "g", "c", 2, 99, 5⟩],
        [⟨10, 1, 7, 2, "the old review body"⟩], []⟩
      10 5 "the new review body!").2.reviews 1).length = 1 ∧
    (handlePutReview (fun t => if t == "tok" then some ⟨7, "alice"⟩ else none)
      (some "Bearer tok")
      ⟨[⟨1, "t", "au", "d", "g", "c", 2, 99, 5⟩],
        [⟨10, 1, 7, 2, "the old review body"⟩], []⟩
      10 5 "the new review body!").2.books.map Book.reviewCount = [99] := by
  refine ⟨by decide, by decide, by decide⟩

/-- Claim C2 (amended): after a successful review update
(`PUT /api/reviews/:id` returning 200), the book's `rating` is
overwritten with the mean of the current ratings of its reviews, but
`reviewCount` is not modified: every book keeps its prior
`reviewCount`. -/
theorem put_review_overwrites_only_rating
    (verify : String → Option AuthUser) (authHeader : Option String)
    (s : AppState) (reviewId : Nat) (rating : Int) (content : String)
    (u : AuthUser) (rv : Review)
    (hauth : authenticate verify authHeader = AuthResult.ok u)
    (hfind : s.reviews.find? (fun r => r.id == reviewId && r.userId == u.id) = some rv)
    (hvalid : reviewBodyValid rating content = true) :
    (handlePutReview verify authHeader s reviewId rating content).1 = 200 ∧
    (handlePutReview verify authHeader s reviewId rating content).2.books.map Book.reviewCount =
      s.books.map Book.reviewCount ∧
    ∀ b ∈ (handlePutReview verify authHeader s reviewId rating content).2.books,
      b.id = rv.bookId →
        b.rating = meanRating
          (reviewsFor (handlePutReview verify authHeader s reviewId rating content).2.reviews rv.bookId) := by
  simp only [handlePutReview, withAuth, hauth, hvalid, if_true, putReviewHandler, hfind]
  refine ⟨by trivial, ?_, ?_⟩
  · rw [List.map_map]
    refine List.map_congr_left ?_
    intro a _
    by_cases hid : (a.id == rv.bookId) = true
    · simp [Function.comp, hid]
    · rw [Bool.not_eq_true] at hid
      simp [Function.comp, hid]
  · intro b hb hbid
    obtain ⟨a, ha, rfl⟩ := List.mem_map.mp hb
    by_cases hid : (a.id == rv.bookId) = true
    · simp only [hid, if_true]
    · rw [Bool.not_eq_true] at hid
      simp only [hid, Bool.false_eq_true, if_false] at hbid
      exact absurd hbid (by simpa using hid)

/-- Witness for C2 (amended) at the counterexample input: the update
returns 200, all books keep their `reviewCount`, and the affected book's
rating becomes the recomputed mean. -/
theorem put_review_overwrites_only_rating_witness :
    authenticate (fun t => if t == "tok" then some ⟨7, "alice"⟩ else none)
      (some "Bearer tok") = AuthResult.ok ⟨7, "alice"⟩ ∧
    ([⟨10, 1, 7, 2, "the old review body"⟩] : List Review).find?
      (fun r => r.id == 10 && r.userId == (7 : Nat)) = some ⟨10, 1, 7, 2, "the old review body"⟩ ∧
    reviewBodyValid 5 "the new review body!" = true ∧
    ((handlePutReview (fun t => if t == "tok" then some ⟨7, "alice"⟩ else none)
      (some "Bearer tok")
      ⟨[⟨1, "t", "au", "d", "g", "c", 2, 99, 5⟩],
        [⟨10, 1, 7, 2, "the old review body"⟩], []⟩
      10 5 "the new review body!").1 = 200 ∧
    (handlePutReview (fun t => if t == "tok" then some ⟨7, "alice"⟩ else none)
      (some "Bearer tok")
      ⟨[⟨1, "t", "au", "d", "g", "c", 2, 99, 5⟩],
        [⟨10, 1, 7, 2, "the old review body"⟩], []⟩
      10 5 "the new review body!").2.books.map Book.reviewCount =
      (AppState.mk [⟨1, "t", "au", "d", "g", "c", 2, 99, 5⟩]
        [⟨10, 1, 7, 2, "the old review body"⟩] []).books.map Book.reviewCount ∧
    ∀ b ∈ (handlePutReview (fun t => if t == "tok" then some ⟨7, "alice"⟩ else none)
      (some "Bearer tok")
      ⟨[⟨1, "t", "au", "d", "g", "c", 2, 99, 5⟩],
        [⟨10, 1, 7, 2, "the old review body"⟩], []⟩
      10 5 "the new review body!").2.books,
      b.id = (Review.mk 10 1 7 2 "the old review body").bookId →
        b.rating = meanRating
          (reviewsFor (handlePutReview (fun t => if t == "tok" then some ⟨7, "alice"⟩ else none)
            (some "Bearer tok")
            ⟨[⟨1, "t", "au", "d", "g", "c", 2, 99, 5⟩],
              [⟨10, 1, 7, 2, "the old review body"⟩], []⟩
            10 5 "the new review body!").2.reviews
            (Review.mk 10 1 7 2 "the old review body").bookId)) :=
  ⟨by decide, by decide, by decide,
    put_review_overwrites_only_rating _ _ _ _ _ _ ⟨7, "alice"⟩
      (Review.mk 10 1 7 2 "the old review body") (by decide) (by decide) (by decide)⟩

/-- Claim C3: when a book's only review is deleted by its owner
(status 200), no review of that book remains, the guarded mean
computation takes its zero branch, and the book ends with `rating = 0`
and `reviewCount = 0`. -/
theorem delete_last_review_resets
    (verify : String → Option AuthUser) (authHeader : Option String)
    (s : AppState) (reviewId : Nat) (u : AuthUser) (rv : Review)
    (hauth : authenticate verify authHeader = AuthResult.ok u)
    (hfind : s.reviews.find? (fun r => r.id == reviewId && r.userId == u.id) = some rv)
    (honly : reviewsFor s.reviews rv.bookId = [rv]) :
    (handleDeleteReview verify authHeader s reviewId).1 = 200 ∧
    reviewsFor (handleDeleteReview verify authHeader s reviewId).2.reviews rv.bookId = [] ∧
    ∀ b ∈ (handleDeleteReview verify authHeader s reviewId).2.books,
      b.id = rv.bookId → b.rating = 0 ∧ b.reviewCount = 0 := by
  have hempty :
      reviewsFor (s.reviews.filter (fun r => !(r.id == rv.id))) rv.bookId = [] := by
    unfold reviewsFor at honly ⊢
    rw [List.filter_filter]
    have hcomm :
        s.reviews.filter (fun r => (r.bookId == rv.bookId) && !(r.id == rv.id)) =
          (s.reviews.filter (fun r => r.bookId == rv.bookId)).filter
            (fun r => !(r.id == rv.id)) := by
      rw [List.filter_filter]
      exact List.filter_congr (fun a _ => Bool.and_comm _ _)
    rw [hcomm, honly]
    simp
  simp only [handleDeleteReview, withAuth, hauth, deleteReviewHandler, hfind]
  refine ⟨by trivial, ?_, ?_⟩
  · exact hempty
  · intro b hb hbid
    obtain ⟨a, ha, rfl⟩ := List.mem_map.mp hb
    by_cases hid : (a.id == rv.bookId) = true
    · rw [hempty] at *
      simp only [hid, if_true, hempty]
      constructor
      · simp [hempty]
      · simp [hempty]
    · rw [Bool.not_eq_true] at hid
      simp only [hid, Bool.false_eq_true, if_false] at hbid
      exact absurd hbid (by simpa using hid)

/-- Witness for C3: user 7 deletes the only review of book 1; the book
ends with rating 0 and reviewCount 0. -/
theorem delete_last_review_resets_witness :
    authenticate (fun t => if t == "tok" then some ⟨7, "alice"⟩ else none)
      (some "Bearer tok") = AuthResult.ok ⟨7, "alice"⟩ ∧
    ([⟨10, 1, 7, 3, "the only review here"⟩] : List Review).find?
      (fun r => r.id == 10 && r.userId == (7 : Nat)) = some ⟨10, 1, 7, 3, "the only review here"⟩ ∧
    reviewsFor [⟨10, 1, 7, 3, "the only review here"⟩]
      (Review.mk 10 1 7 3 "the only review here").bookId =
      [⟨10, 1, 7, 3, "the only review here"⟩] ∧
    ((handleDeleteReview (fun t => if t == "tok" then some ⟨7, "alice"⟩ else none)
      (some "Bearer tok")
      ⟨[⟨1, "t", "au", "d", "g", "c", 3, 1, 5⟩],
        [⟨10, 1, 7, 3, "the only review here"⟩], []⟩ 10).1 = 200 ∧
    reviewsFor (handleDeleteReview (fun t => if t == "tok" then some ⟨7, "alice"⟩ else none)
      (some "Bearer tok")
      ⟨[⟨1, "t", "au", "d", "g", "c", 3, 1, 5⟩],
        [⟨10, 1, 7, 3, "the only review here"⟩], []⟩ 10).2.reviews
      (Review.mk 10 1 7 3 "the only review here").bookId = [] ∧
    ∀ b ∈ (handleDeleteReview (fun t => if t == "tok" then some ⟨7, "alice"⟩ else none)
      (some "Bearer tok")
      ⟨[⟨1, "t", "au", "d", "g", "c", 3, 1, 5⟩],
        [⟨10, 1, 7, 3, "the only review here"⟩], []⟩ 10).2.books,
      b.id = (Review.mk 10 1 7 3 "the only review here").bookId →
        b.rating = 0 ∧ b.reviewCount = 0) :=
  ⟨by decide, by decide, by decide,
    delete_last_review_resets _ _ _ _ ⟨7, "alice"⟩
      (Review.mk 10 1 7 3 "the only review here") (by decide) (by decide) (by decide)⟩

/-- `(n + 8) / 9` is the exact ceiling of `n / 9`. -/
lemma mathCeilDiv_nine_eq_ceil (n : Nat) :
    ((mathCeilDiv n 9 : Nat) : ℤ) = ⌈(n : ℚ) / 9⌉ := by
  have hm : mathCeilDiv n 9 = (n + 8) / 9 := by
    unfold mathCeilDiv
    norm_num
  set q : Nat := (n + 8) / 9 with hq
  set r : Nat := (n + 8) % 9 with hr
  have hdm : 9 * q + r = n + 8 := Nat.div_add_mod (n + 8) 9
  have hlt : r < 9 := Nat.mod_lt _ (by norm_num)
  have h9 : (0 : ℚ) < 9 := by norm_num
  have hdmQ : (9 : ℚ) * (q : ℚ) + (r : ℚ) = (n : ℚ) + 8 := by exact_mod_cast hdm
  have hltQ : (r : ℚ) < 9 := by exact_mod_cast hlt
  have hnn : (0 : ℚ) ≤ (r : ℚ) := Nat.cast_nonneg _
  have hleQ : (r : ℚ) ≤ 8 := by
    have : r ≤ 8 := Nat.lt_succ_iff.mp hlt
    exact_mod_cast this
  rw [hm, eq_comm, Int.ceil_eq_iff]
  constructor
  · rw [lt_div_iff₀ h9]
    push_cast
    linarith
  · rw [div_le_iff₀ h9]
    push_cast
    linarith

/-- Claim C10: `GET /api/books` returns at most 9 books; they are the
first 9 of the matching books sorted by `createdAt` descending after
skipping `(page - 1) * 9` of them, so the returned list itself is in
`createdAt`-descending order; and `totalPages` is the ceiling of the
matching count divided by 9. -/
theorem get_books_pagination (q : Book → Bool) (page : Nat)
    (books : List Book) (hpage : 1 ≤ page) :
    (getBooks q page books).books.length ≤ 9 ∧
    (getBooks q page books).books =
      ((sortBooks (books.filter q)).drop ((page - 1) * 9)).take 9 ∧
    List.Sorted byCreatedAtDesc (getBooks q page books).books ∧
    ((getBooks q page books).totalPages : ℤ) =
      ⌈((books.filter q).length : ℚ) / 9⌉ := by
  refine ⟨?_, rfl, ?_, mathCeilDiv_nine_eq_ceil _⟩
  · exact List.length_take_le 9 _
  · have hs : List.Sorted byCreatedAtDesc (sortBooks (books.filter q)) :=
      List.sorted_insertionSort byCreatedAtDesc _
    have hsub :
        List.Sublist (((sortBooks (books.filter q)).drop ((page - 1) * 9)).take 9)
          (sortBooks (books.filter q)) :=
      (List.take_sublist _ _).trans (List.drop_sublist _ _)
    exact hs.sublist hsub

/-- Witness for C10 at a concrete listing: page 1 over two books with an
always-true filter. -/
theorem get_books_pagination_witness :
    1 ≤ 1 ∧
    ((getBooks (fun _ => true) 1
      [⟨1, "t1", "a1", "d", "g", "c", 0, 0, 5⟩,
        ⟨2, "t2", "a2", "d", "g", "c", 0, 0, 9⟩]).books.length ≤ 9 ∧
    (getBooks (fun _ => true) 1
      [⟨1, "t1", "a1", "d", "g", "c", 0, 0, 5⟩,
        ⟨2, "t2", "a2", "d", "g", "c", 0, 0, 9⟩]).books =
      ((sortBooks (([⟨1, "t1", "a1", "d", "g", "c", 0, 0, 5⟩,
        ⟨2, "t2", "a2", "d", "g", "c", 0, 0, 9⟩] : List Book).filter (fun _ => true))).drop
        ((1 - 1) * 9)).take 9 ∧
    List.Sorted byCreatedAtDesc (getBooks (fun _ => true) 1
      [⟨1, "t1", "a1", "d", "g", "c", 0, 0, 5⟩,
        ⟨2, "t2", "a2", "d", "g", "c", 0, 0, 9⟩]).books ∧
    ((getBooks (fun _ => true) 1
      [⟨1, "t1", "a1", "d", "g", "c", 0, 0, 5⟩,
        ⟨2, "t2", "a2", "d", "g", "c", 0, 0, 9⟩]).totalPages : ℤ) =
      ⌈((([⟨1, "t1", "a1", "d", "g", "c", 0, 0, 5⟩,
        ⟨2, "t2", "a2", "d", "g", "c", 0, 0, 9⟩] : List Book).filter (fun _ => true)).length : ℚ) / 9⌉) :=
  ⟨by decide, get_books_pagination (fun _ => true) 1
    [⟨1, "t1", "a1", "d", "g", "c", 0, 0, 5⟩,
      ⟨2, "t2", "a2", "d", "g", "c", 0, 0, 9⟩] (by decide)⟩
